import Mathlib

/-! # hBook `docker/example/main.go`: the config-file HTTP server

A shallow embedding of `src/docker/example/main.go` and of the few operations of
Go's `net/http`, `io/ioutil` and `fmt` packages that the program calls.

* A request is the record the handler receives (`r *http.Request`).
* The file system is explicit state: a map from a path to the outcome of reading it.
  `World` pairs it with the log of the paths read so far, so that "the file is
  not read" is a statement about the log.
* A response is the state of the `http.ResponseWriter` when the request is finished:
  status, header map, and the body bytes the server sends (none in reply to `HEAD`).
  Headers the server adds on the wire on its own (`Date`, `Content-Length`) are outside
  the model.
* Routing follows `net/http` as in Go 1.21 and before: the server's own reply to
  `OPTIONS *`, then `ServeMux` with its path cleaning, redirects and pattern lookup.
-/

set_option autoImplicit false

namespace HBook

/-! ## Bytes and strings -/

/-- A Go `[]byte`. -/
abbrev Bytes := List UInt8

/-- The bytes of a Go string (Go source strings are UTF-8). -/
def stringBytes (s : String) : Bytes :=
  s.data.flatMap String.utf8EncodeChar

/-! ## File system -/

/-- The error of a failed read. Go returns an `*fs.PathError` wrapping the cause. -/
inductive ReadError where
  | notExist
  | permission
  | isDirectory
  | io (detail : String)
  deriving DecidableEq, Repr

/-- State of the file system: the outcome of reading each path. -/
abbrev FileSystem := String → Except ReadError Bytes

/-- The file system together with the log of the paths read (latest last). -/
structure World where
  fs : FileSystem
  reads : List String

/-- Go `ioutil.ReadFile(filename)`: the whole contents or an error; the read is logged. -/
def ioutil.ReadFile (wd : World) (filename : String) : Except ReadError Bytes × World :=
  (wd.fs filename, { wd with reads := wd.reads ++ [filename] })

/-! ## `net/http`: requests, the response writer, `http.Error` -/

/-- A request that the server has read and accepted, as it is handed to
`serverHandler.ServeHTTP`: the fields of `http.Request` the server, the mux and a handler
look at. `Path` is `r.URL.Path` and `URLHost` is `r.URL.Host`. -/
structure Request where
  Method : String
  RequestURI : String
  Host : String
  URLHost : String
  Path : String
  Header : List (String × String)
  Body : Bytes

/-- Go `http.MethodGet`. -/
def http.MethodGet : String := "GET"

/-- Go `http.StatusOK`. -/
def http.StatusOK : Nat := 200

/-- Go `http.StatusNotFound`. -/
def http.StatusNotFound : Nat := 404

/-- Go `http.StatusMethodNotAllowed`. -/
def http.StatusMethodNotAllowed : Nat := 405

/-- Go `http.StatusInternalServerError`. -/
def http.StatusInternalServerError : Nat := 500

/-- State of an `http.ResponseWriter`: the method of the request it answers, the header
map, whether the status line has been written, the status, and the body sent so far. -/
structure ResponseWriter where
  reqMethod : String
  header : List (String × String)
  wroteHeader : Bool
  status : Nat
  body : Bytes
  deriving DecidableEq, Repr

/-- The writer a handler is given for a new request with the given method. -/
def ResponseWriter.fresh (method : String) : ResponseWriter :=
  { reqMethod := method, header := [], wroteHeader := false, status := 0, body := [] }

/-- Go `w.Header().Del(key)`. Has no effect on the response once the status is written. -/
def ResponseWriter.Del (w : ResponseWriter) (key : String) : ResponseWriter :=
  if w.wroteHeader then w
  else { w with header := w.header.filter (fun kv => kv.1 != key) }

/-- Go `w.Header().Set(key, value)`: replaces any value of `key`. Has no effect on the
response once the status is written. The keys this program uses are in canonical form. -/
def ResponseWriter.Set (w : ResponseWriter) (key value : String) : ResponseWriter :=
  if w.wroteHeader then w
  else { w with header := w.header.filter (fun kv => kv.1 != key) ++ [(key, value)] }

/-- Go `w.Header().Get(key)`. -/
def ResponseWriter.Get (w : ResponseWriter) (key : String) : Option String :=
  (w.header.find? (fun kv => kv.1 == key)).map (fun kv => kv.2)

/-- Go `w.WriteHeader(code)`: the first call fixes the status, later calls are ignored.
(The codes this program and the not-found handler write are 200, 404, 405 and 500; the
informational 1xx codes, which do not fix the status, are never written.) -/
def ResponseWriter.WriteHeader (w : ResponseWriter) (code : Nat) : ResponseWriter :=
  if w.wroteHeader then w
  else { w with wroteHeader := true, status := code }

/-- Go `bodyAllowedForStatus`: no body with a 1xx, 204 or 304 status. -/
def bodyAllowedForStatus (status : Nat) : Bool :=
  if 100 ≤ status ∧ status ≤ 199 then false
  else if status = 204 then false
  else if status = 304 then false
  else true

/-- Go `w.Write(data)` on the server's response writer: writes status 200 first when no
status was written; then empty data is a no-op, data is refused when the status allows no
body, data is dropped when the request method is `HEAD`, and otherwise the data is
appended to the body. (Content sniffing and the check against a declared length apply only
when no `Content-Type`, respectively a `Content-Length`, is set; every `Write` of this
program follows a `Set` of `Content-Type`, and the program never sets `Content-Length`.) -/
def ResponseWriter.Write (w : ResponseWriter) (data : Bytes) : ResponseWriter :=
  let w1 := w.WriteHeader http.StatusOK
  if data.length = 0 then w1
  else if !bodyAllowedForStatus w1.status then w1
  else if w1.reqMethod = "HEAD" then w1
  else { w1 with body := w1.body ++ data }

/-- What the server does when the handler returns: a handler that wrote nothing gets
status 200. -/
def ResponseWriter.finishRequest (w : ResponseWriter) : ResponseWriter :=
  w.WriteHeader http.StatusOK

/-- Go `fmt.Fprintln(w, s)`: the string followed by a newline. -/
def fmt.Fprintln (w : ResponseWriter) (s : String) : ResponseWriter :=
  w.Write (stringBytes s ++ stringBytes "\n")

/-- Go `http.Error(w, error, code)`: a plain-text reply with the given status. (Older
versions lack the `Del`, which changes nothing on a writer without `Content-Length`.) -/
def http.Error (w : ResponseWriter) (error : String) (code : Nat) : ResponseWriter :=
  let w1 := w.Del "Content-Length"
  let w2 := w1.Set "Content-Type" "text/plain; charset=utf-8"
  let w3 := w2.Set "X-Content-Type-Options" "nosniff"
  let w4 := w3.WriteHeader code
  fmt.Fprintln w4 error

/-! ## The program -/

/-- A Go `http.Handler`: runs on the world and a response writer. -/
abbrev Handler := World → ResponseWriter → Request → ResponseWriter × World

/-- The function literal registered in `main` (main.go lines 10 to 25). -/
def handler : Handler := fun wd w r =>
  if r.Method = http.MethodGet then
    match ioutil.ReadFile wd "/config/config.json" with
    | (.error _, wd1) =>
      (http.Error w "Error reading config file" http.StatusInternalServerError, wd1)
    | (.ok configData, wd1) =>
      let w1 := w.Set "Content-Type" "application/json"
      (w1.Write configData, wd1)
  else
    (http.Error w "Invalid request method" http.StatusMethodNotAllowed, wd)

/-- One request against a handler: a fresh writer, the handler, then the server's finish. -/
def serveOne (h : Handler) (wd : World) (r : Request) : ResponseWriter × World :=
  let res := h wd (ResponseWriter.fresh r.Method) r
  (res.1.finishRequest, res.2)

/-- The serve loop on a sequence of requests. Each request comes with the file system as
it is when the request arrives (the files may change between requests); the read log
is carried along. Returns the responses in order and the final world. -/
def serveAll (h : Handler) : World → List (FileSystem × Request) → List ResponseWriter × World
  | wd, [] => ([], wd)
  | wd, (fs, r) :: rest =>
    let res := serveOne h { wd with fs := fs } r
    let out := serveAll h res.2 rest
    (res.1 :: out.1, out.2)

/-! ## `net/http`: the request multiplexer

`http.HandleFunc` registers on `http.DefaultServeMux`, and `http.ListenAndServe(addr, nil)`
serves with it. The definitions below follow the mux as in Go 1.21 and before: the
registration (`Handle`), the pattern lookup (`match`, `handler`), the cleaning of the
request path and the redirects (`cleanPath`, `shouldRedirectRLocked`, `Handler`), and the
replies the mux and the server give without calling a handler (`ServeHTTP`).
-/

/-- Go `muxEntry`. -/
structure muxEntry where
  h : Handler
  pattern : String

/-- Go `ServeMux`: the registered entries by pattern, the entries whose pattern ends in a
slash from longest to shortest, and whether some pattern names a host. -/
structure ServeMux where
  m : List (String × muxEntry)
  es : List muxEntry
  hosts : Bool

/-- The zero `ServeMux`, the initial value of `http.DefaultServeMux`. -/
def ServeMux.new : ServeMux := { m := [], es := [], hosts := false }

/-- Go `appendSorted`: inserts before the first entry with a shorter pattern. -/
def appendSorted (es : List muxEntry) (e : muxEntry) : List muxEntry :=
  es.takeWhile (fun x => decide (e.pattern.utf8ByteSize ≤ x.pattern.utf8ByteSize)) ++ e ::
    es.dropWhile (fun x => decide (e.pattern.utf8ByteSize ≤ x.pattern.utf8ByteSize))

/-- Go `mux.Handle(pattern, handler)`. A panic is an `Except.error`. -/
def ServeMux.Handle (mux : ServeMux) (pattern : String) (handler : Handler) :
    Except String ServeMux :=
  if pattern = "" then .error "http: invalid pattern"
  else if (mux.m.find? (fun kv => kv.1 == pattern)).isSome then
    .error ("http: multiple registrations for " ++ pattern)
  else
    let e : muxEntry := { h := handler, pattern := pattern }
    .ok { m := mux.m ++ [(pattern, e)]
          es := if pattern.back = '/' then appendSorted mux.es e else mux.es
          hosts := mux.hosts || pattern.front != '/' }

/-- Go `strings.HasPrefix(s, p)`. -/
def strings.startsWith (s p : String) : Bool :=
  p.data.isPrefixOf s.data

/-- Go `mux.match(path)`: an exact match first, then the longest registered pattern
ending in a slash that the path starts with. -/
def ServeMux.matchPath (mux : ServeMux) (path : String) : Option muxEntry :=
  match mux.m.find? (fun kv => kv.1 == path) with
  | some kv => some kv.2
  | none => mux.es.find? (fun e => strings.startsWith path e.pattern)

/-- Go `http.NotFound` as a handler: `http.Error(w, "404 page not found", 404)`. -/
def http.NotFoundHandler : Handler := fun wd w _ =>
  (http.Error w "404 page not found" http.StatusNotFound, wd)

/-- Go `mux.handler(host, path)`: host-specific patterns first, then generic ones, and
the not-found handler when nothing matches. Returns the handler and the pattern. -/
def ServeMux.handler (mux : ServeMux) (host path : String) : Handler × String :=
  let hostMatch := if mux.hosts then mux.matchPath (host ++ path) else none
  match hostMatch with
  | some e => (e.h, e.pattern)
  | none =>
    match mux.matchPath path with
    | some e => (e.h, e.pattern)
    | none => (http.NotFoundHandler, "")

/-- Index of the first occurrence of `c`, if any. -/
def firstIndex (c : Char) (cs : List Char) : Option Nat :=
  if c ∈ cs then some (cs.indexOf c) else none

/-- Index of the last occurrence of `c`, if any. -/
def lastIndex (c : Char) (cs : List Char) : Option Nat :=
  if c ∈ cs then some (cs.length - 1 - cs.reverse.indexOf c) else none

/-- Go `net.SplitHostPort(hostport)`: host and port, or `none` for an error. -/
def net.SplitHostPort (hostport : String) : Option (String × String) :=
  let cs := hostport.data
  match lastIndex ':' cs with
  | none => none
  | some i =>
    let parsed : Option (List Char × Nat × Nat) :=
      if cs.head? = some '[' then
        match firstIndex ']' cs with
        | none => none
        | some e =>
          if e + 1 = cs.length then none
          else if e + 1 = i then some ((cs.take e).drop 1, 1, e + 1)
          else none
      else
        if ':' ∈ cs.take i then none else some (cs.take i, 0, 0)
    match parsed with
    | none => none
    | some (host, j, k) =>
      if '[' ∈ cs.drop j then none
      else if ']' ∈ cs.drop k then none
      else some (String.mk host, String.mk (cs.drop (i + 1)))

/-- Go `stripHostPort(h)`: `h` without a trailing port; unchanged when there is no colon
or the split fails. -/
def stripHostPort (h : String) : String :=
  if ':' ∈ h.data then
    match net.SplitHostPort h with
    | some hp => hp.1
    | none => h
  else h

/-- The backtracking step of `path.Clean` at a `..` element, on the output written so far
(last byte first): drops the last byte, then keeps dropping while more than `dotdot` bytes
are left and the byte just dropped is not a slash. -/
def path.backtrack (dotdot : Nat) : List Char → List Char
  | [] => []
  | c :: rest => if dotdot < rest.length && c != '/' then path.backtrack dotdot rest else rest

/-- The loop of Go `path.Clean` over the rest of the path. `out` is the output written so
far, last byte first; the flag says that the loop is copying a path element. -/
def path.Clean.loop (rooted : Bool) : Bool → List Char → List Char → Nat → List Char
  | _, [], out, _ => out
  | true, c :: t, out, dotdot =>
    if c = '/' then path.Clean.loop rooted false t out dotdot
    else path.Clean.loop rooted true t (c :: out) dotdot
  | false, c :: t, out, dotdot =>
    if c = '/' then
      path.Clean.loop rooted false t out dotdot
    else if c = '.' ∧ (t = [] ∨ t.head? = some '/') then
      path.Clean.loop rooted false t out dotdot
    else
      match t with
      | [] =>
        path.Clean.loop rooted true []
          (c :: (if (rooted && out.length != 1) || (!rooted && out.length != 0)
            then '/' :: out else out)) dotdot
      | c2 :: t2 =>
        if c = '.' ∧ c2 = '.' ∧ (t2 = [] ∨ t2.head? = some '/') then
          if dotdot < out.length then
            path.Clean.loop rooted false t2 (path.backtrack dotdot out) dotdot
          else if !rooted then
            path.Clean.loop rooted false t2
              ('.' :: '.' :: (if 0 < out.length then '/' :: out else out))
              (('.' :: '.' :: (if 0 < out.length then '/' :: out else out)).length)
          else
            path.Clean.loop rooted false t2 out dotdot
        else
          path.Clean.loop rooted true (c2 :: t2)
            (c :: (if (rooted && out.length != 1) || (!rooted && out.length != 0)
              then '/' :: out else out)) dotdot

/-- Go `path.Clean(p)`: the shortest equivalent path; removes empty, `.` and `..`
elements. -/
def path.Clean (p : String) : String :=
  if p = "" then "."
  else
    let out :=
      if p.front == '/' then path.Clean.loop true false p.data.tail ['/'] 1
      else path.Clean.loop false false p.data [] 0
    if out.length = 0 then "." else String.mk out.reverse

/-- Go `cleanPath(p)` of `net/http`: the canonical form of a request path, with the
trailing slash kept. -/
def cleanPath (p : String) : String :=
  if p = "" then "/"
  else
    let p1 := if p.front != '/' then "/" ++ p else p
    let np := path.Clean p1
    if p1.back = '/' ∧ np ≠ "/" then
      if p1.utf8ByteSize = np.utf8ByteSize + 1 ∧ strings.startsWith p1 np then p1
      else np ++ "/"
    else np

/-- Whether a pattern is registered (`_, exist := mux.m[pattern]`). -/
def ServeMux.has (mux : ServeMux) (pattern : String) : Bool :=
  (mux.m.find? (fun kv => kv.1 == pattern)).isSome

/-- Go `mux.shouldRedirectRLocked(host, path)`: whether to redirect to `path + "/"`,
which is when that pattern is registered and the path itself is not. -/
def ServeMux.shouldRedirectRLocked (mux : ServeMux) (host path : String) : Bool :=
  if mux.has path || mux.has (host ++ path) then false
  else if path.utf8ByteSize = 0 then false
  else if mux.has (path ++ "/") then path.back != '/'
  else if mux.has (host ++ path ++ "/") then path.back != '/'
  else false

/-- How a request is routed: to the server's own reply to `OPTIONS *`, to the mux's
400 reply to the request URI `*`, to a redirect handler for the URL with the given path
(and the query of the request), or to a handler with the pattern that matched. -/
inductive Routed where
  | optionsStar
  | badRequest
  | redirect (path : String) (code : Nat)
  | handle (h : Handler) (pattern : String)

/-- Go `mux.Handler(r)`: the handler for a request. `CONNECT` requests are looked up as
they are; all others have the port stripped from the host and the path cleaned, and are
redirected when the cleaned path differs from the path of the request. -/
def ServeMux.Handler (mux : ServeMux) (r : Request) : Routed :=
  if r.Method = "CONNECT" then
    if mux.shouldRedirectRLocked r.URLHost r.Path then .redirect (r.Path ++ "/") 301
    else .handle (mux.handler r.Host r.Path).1 (mux.handler r.Host r.Path).2
  else
    let host := stripHostPort r.Host
    let path := cleanPath r.Path
    if mux.shouldRedirectRLocked host path then .redirect (path ++ "/") 301
    else if path != r.Path then .redirect path 301
    else .handle (mux.handler host r.Path).1 (mux.handler host r.Path).2

/-- Go `mux.ServeHTTP(w, r)`: the request URI `*` is answered with 400, every other
request by the handler of `mux.Handler`. -/
def ServeMux.ServeHTTP (mux : ServeMux) (r : Request) : Routed :=
  if r.RequestURI = "*" then .badRequest else mux.Handler r

/-- Go `serverHandler.ServeHTTP`: `OPTIONS *` is answered by the server itself, every
other request by the mux. -/
def serverHandler.ServeHTTP (mux : ServeMux) (r : Request) : Routed :=
  if r.RequestURI = "*" ∧ r.Method = "OPTIONS" then .optionsStar else mux.ServeHTTP r

/-- The mux after `main` has run `http.HandleFunc("/", ...)` (main.go line 10). -/
def main.DefaultServeMux : Except String ServeMux :=
  ServeMux.Handle ServeMux.new "/" handler

/-- How the program answers a request: without a handler (see `Routed`), or with the
response of the handler that the mux selected and the pattern that matched. -/
inductive Served where
  | optionsStar
  | badRequest
  | redirect (path : String) (code : Nat)
  | handled (w : ResponseWriter) (pattern : String)

/-- What the program answers to one request that the server has read and accepted
(main.go lines 10 and 28): the request is routed by the server and the mux of `main`, and
a selected handler is run on a fresh writer. -/
def main.serve (wd : World) (r : Request) : Except String Served :=
  main.DefaultServeMux.map (fun mux =>
    match serverHandler.ServeHTTP mux r with
    | .optionsStar => .optionsStar
    | .badRequest => .badRequest
    | .redirect path code => .redirect path code
    | .handle h pattern => .handled (serveOne h wd r).1 pattern)

/-! ## Helper definitions for the statements -/

/-- The fixed path the handler reads. -/
def configPath : String := "/config/config.json"

/-- The reply `http.Error` gives on a fresh writer for a request with the given
method: the message and a newline as body, and no body in reply to `HEAD`. -/
def errorReply (method msg : String) (code : Nat) : ResponseWriter :=
  { reqMethod := method
    header := [("Content-Type", "text/plain; charset=utf-8"),
               ("X-Content-Type-Options", "nosniff")]
    wroteHeader := true
    status := code
    body := if method = "HEAD" then [] else stringBytes msg ++ stringBytes "\n" }

/-- The reply to a `GET` whose read succeeded with `b`. -/
def fileReply (b : Bytes) : ResponseWriter :=
  { reqMethod := "GET"
    header := [("Content-Type", "application/json")]
    wroteHeader := true
    status := 200
    body := b }

/-- The reply as a function of the method and of the outcome of the read. -/
def replyOf (method : String) (outcome : Except ReadError Bytes) : ResponseWriter :=
  if method = "GET" then
    match outcome with
    | .ok b => fileReply b
    | .error _ => errorReply method "Error reading config file" 500
  else errorReply method "Invalid request method" 405

/-- A request with the given method and path (the request URI is the path) and nothing
else. -/
def mkRequest (method path : String) : Request :=
  { Method := method, RequestURI := path, Host := "localhost:8080", URLHost := "",
    Path := path, Header := [], Body := [] }

/-- A world in which the config file holds `b` and every other path is missing. -/
def worldWith (b : Bytes) : World :=
  { fs := fun p => if p = configPath then .ok b else .error .notExist, reads := [] }

/-- The bytes of the JSON text of the sample scenario: an object with key a and value 1. -/
def sampleConfig : Bytes := stringBytes "\x7b\"a\":1\x7d"

/-- A world in which every read fails with `e`. -/
def worldFailing (e : ReadError) : World :=
  { fs := fun _ => .error e, reads := [] }

/-- The mux of `main`: one entry, for the pattern "/". -/
def mainMux : ServeMux :=
  { m := [("/", { h := handler, pattern := "/" })]
    es := [{ h := handler, pattern := "/" }]
    hosts := false }

/-- The response is plain text: its Content-Type starts with text/plain and is not
application/json. -/
def plainText (w : ResponseWriter) : Prop :=
  ∃ ct, w.Get "Content-Type" = some ct ∧ strings.startsWith ct "text/plain" = true ∧
    ct ≠ "application/json"

/-! ## Helper lemmas -/

theorem stringBytes_newline : stringBytes "\n" = [10] := by decide

theorem http_Error_fresh (method msg : String) (code : Nat)
    (hcode : bodyAllowedForStatus code = true) :
    (http.Error (ResponseWriter.fresh method) msg code).finishRequest =
      errorReply method msg code := by
  by_cases hh : method = "HEAD"
  · simp [http.Error, fmt.Fprintln, ResponseWriter.Write, ResponseWriter.WriteHeader,
      ResponseWriter.Set, ResponseWriter.Del, ResponseWriter.fresh,
      ResponseWriter.finishRequest, errorReply, stringBytes_newline, hcode, hh]
  · simp [http.Error, fmt.Fprintln, ResponseWriter.Write, ResponseWriter.WriteHeader,
      ResponseWriter.Set, ResponseWriter.Del, ResponseWriter.fresh,
      ResponseWriter.finishRequest, errorReply, stringBytes_newline, hcode, hh]

theorem serveOne_handler (wd : World) (r : Request) :
    (serveOne handler wd r).1 = replyOf r.Method (wd.fs configPath) := by
  unfold serveOne handler replyOf
  by_cases hm : r.Method = "GET"
  · cases hfs : wd.fs configPath with
    | ok b =>
      simp [hm, http.MethodGet, ioutil.ReadFile, configPath] at hfs ⊢
      cases b with
      | nil =>
        simp [hfs, ResponseWriter.Write, ResponseWriter.WriteHeader, ResponseWriter.Set,
          ResponseWriter.fresh, ResponseWriter.finishRequest, fileReply, http.StatusOK]
      | cons x xs =>
        simp [hfs, ResponseWriter.Write, ResponseWriter.WriteHeader, ResponseWriter.Set,
          ResponseWriter.fresh, ResponseWriter.finishRequest, fileReply, http.StatusOK,
          bodyAllowedForStatus]
    | error e =>
      simp [hm, http.MethodGet, ioutil.ReadFile, configPath] at hfs ⊢
      simp [hfs, http.StatusInternalServerError]
      exact http_Error_fresh "GET" _ 500 (by decide)
  · simp only [hm, http.MethodGet, if_false, http.StatusMethodNotAllowed]
    exact http_Error_fresh r.Method _ 405 (by decide)

theorem serveOne_handler_world (wd : World) (r : Request) :
    (serveOne handler wd r).2 =
      if r.Method = "GET" then { wd with reads := wd.reads ++ [configPath] } else wd := by
  unfold serveOne handler
  by_cases hm : r.Method = "GET"
  · cases hfs : wd.fs configPath with
    | ok b =>
      simp [hm, http.MethodGet, ioutil.ReadFile, configPath] at hfs ⊢
      simp [hfs]
    | error e =>
      simp [hm, http.MethodGet, ioutil.ReadFile, configPath] at hfs ⊢
      simp [hfs]
  · simp [hm, http.MethodGet]

theorem serveAll_snoc (h : Handler) (hist : List (FileSystem × Request)) (wd : World)
    (fs : FileSystem) (r : Request) :
    ∃ wd1 : World, (serveAll h wd (hist ++ [(fs, r)])).1.getLast? =
      some (serveOne h { wd1 with fs := fs } r).1 := by
  induction hist generalizing wd with
  | nil => exact ⟨wd, by simp [serveAll]⟩
  | cons x rest ih =>
    obtain ⟨xfs, xr⟩ := x
    obtain ⟨wd1, h1⟩ := ih (serveOne h { wd with fs := xfs } xr).2
    refine ⟨wd1, ?_⟩
    rw [List.cons_append]
    simp only [serveAll]
    rw [List.getLast?_cons, h1]
    simp

theorem main_DefaultServeMux_eq : main.DefaultServeMux = .ok mainMux := by
  simp [main.DefaultServeMux, ServeMux.Handle, ServeMux.new, appendSorted, mainMux]
  decide

theorem mainMux_has (p : String) : mainMux.has p = ("/" == p) := by
  simp only [ServeMux.has, mainMux, List.find?]
  cases h : ("/" == p) <;> simp

theorem append_slash_ne (p : String) (hne : p ≠ "") : ("/" == p ++ "/") = false := by
  simp only [beq_eq_false_iff_ne, ne_eq]
  intro h
  have hd := congrArg String.data h
  rw [String.data_append] at hd
  have hd2 : ['/'] = p.data ++ ['/'] := hd
  have hl := congrArg List.length hd2
  rw [List.length_append] at hl
  have hz : p.data.length = 0 := by
    simp only [List.length_singleton] at hl
    omega
  exact hne (String.ext (List.length_eq_zero.mp hz))

theorem mainMux_shouldRedirect (host path : String) :
    mainMux.shouldRedirectRLocked host path = false := by
  unfold ServeMux.shouldRedirectRLocked
  by_cases h0 : path.utf8ByteSize = 0
  · simp [h0]
  · have hne : path ≠ "" := fun h => h0 (by rw [h]; rfl)
    have hne2 : host ++ path ≠ "" := by
      intro h
      apply hne
      have hd := congrArg String.data h
      rw [String.data_append] at hd
      have hd2 : host.data ++ path.data = [] := hd
      exact String.ext (List.append_eq_nil.mp hd2).2
    simp [h0, mainMux_has, append_slash_ne path hne, append_slash_ne (host ++ path) hne2]

theorem mainMux_handler (host path : String) (hp : strings.startsWith path "/" = true) :
    mainMux.handler host path = (handler, "/") := by
  simp only [ServeMux.handler, ServeMux.matchPath, mainMux]
  by_cases h1 : path = "/"
  · simp [h1]
  · have h2 : ("/" == path) = false := by
      simp only [beq_eq_false_iff_ne, ne_eq]
      exact fun h => h1 h.symm
    simp [h2, hp]

theorem main_serve_eq (wd : World) (r : Request) :
    main.serve wd r = .ok (match serverHandler.ServeHTTP mainMux r with
      | .optionsStar => .optionsStar
      | .badRequest => .badRequest
      | .redirect path code => .redirect path code
      | .handle h pattern => .handled (serveOne h wd r).1 pattern) := by
  simp only [main.serve, main_DefaultServeMux_eq, Except.map]

theorem mainMux_route (r : Request) (huri : r.RequestURI ≠ "*") :
    serverHandler.ServeHTTP mainMux r =
      if r.Method = "CONNECT" then
        .handle (mainMux.handler r.Host r.Path).1 (mainMux.handler r.Host r.Path).2
      else if (cleanPath r.Path != r.Path) = true then .redirect (cleanPath r.Path) 301
      else .handle (mainMux.handler (stripHostPort r.Host) r.Path).1
        (mainMux.handler (stripHostPort r.Host) r.Path).2 := by
  simp only [serverHandler.ServeHTTP, ServeMux.ServeHTTP, ServeMux.Handler, huri, false_and,
    if_false, mainMux_shouldRedirect, Bool.false_eq_true]

theorem noncanonical_path_redirected (wd : World) (r : Request) (huri : r.RequestURI ≠ "*")
    (hm : r.Method ≠ "CONNECT") (hc : cleanPath r.Path ≠ r.Path) :
    main.serve wd r = .ok (.redirect (cleanPath r.Path) 301) := by
  rw [main_serve_eq, mainMux_route r huri]
  simp [hm, hc]

/-! ## The claims -/

/-- C1: a request whose method is not exactly "GET" is answered with status 405, whatever
the state of the file system. -/
theorem handler_other_method_405 (wd : World) (r : Request) (hm : r.Method ≠ "GET") :
    (serveOne handler wd r).1.status = 405 := by
  rw [serveOne_handler]
  simp [replyOf, hm, errorReply]

theorem handler_other_method_405_witness :
    (serveOne handler (worldWith [1, 2]) (mkRequest "HEAD" "/")).1.status = 405 ∧
    (serveOne handler (worldWith []) (mkRequest "POST" "/")).1.status = 405 ∧
    (serveOne handler (worldFailing .notExist) (mkRequest "" "/")).1.status = 405 ∧
    (serveOne handler (worldFailing .permission) (mkRequest "get" "/")).1.status = 405 :=
  ⟨handler_other_method_405 _ _ (by decide), handler_other_method_405 _ _ (by decide),
   handler_other_method_405 _ _ (by decide), handler_other_method_405 _ _ (by decide)⟩

/-- C2: when the read of /config/config.json succeeds with contents b (any byte sequence,
the empty one included), a GET request is answered with status 200, the header
Content-Type equal to application/json, and a body equal to b. -/
theorem handler_get_ok (wd : World) (r : Request) (b : Bytes) (hm : r.Method = "GET")
    (hfs : wd.fs "/config/config.json" = .ok b) :
    (serveOne handler wd r).1.status = 200 ∧
    (serveOne handler wd r).1.Get "Content-Type" = some "application/json" ∧
    (serveOne handler wd r).1.body = b := by
  rw [serveOne_handler]
  simp only [configPath, hfs, replyOf, hm, if_true, fileReply]
  refine ⟨trivial, ?_, trivial⟩
  simp [ResponseWriter.Get]

theorem handler_get_ok_witness :
    ((serveOne handler (worldWith sampleConfig) (mkRequest "GET" "/")).1.status = 200 ∧
      (serveOne handler (worldWith sampleConfig) (mkRequest "GET" "/")).1.Get
        "Content-Type" = some "application/json" ∧
      (serveOne handler (worldWith sampleConfig) (mkRequest "GET" "/")).1.body =
        sampleConfig) ∧
    (serveOne handler (worldWith []) (mkRequest "GET" "/")).1.body = [] :=
  ⟨handler_get_ok (worldWith sampleConfig) (mkRequest "GET" "/") _ rfl rfl,
   (handler_get_ok (worldWith []) (mkRequest "GET" "/") [] rfl rfl).2.2⟩

/-- C3: whatever the read error of /config/config.json, a GET request is answered with
status 500. -/
theorem handler_get_read_error_500 (wd : World) (r : Request) (e : ReadError)
    (hm : r.Method = "GET") (hfs : wd.fs "/config/config.json" = .error e) :
    (serveOne handler wd r).1.status = 500 := by
  rw [serveOne_handler]
  simp [configPath, hfs, replyOf, hm, errorReply]

theorem handler_get_read_error_500_witness :
    (serveOne handler (worldFailing .notExist) (mkRequest "GET" "/")).1.status = 500 ∧
    (serveOne handler (worldFailing .permission) (mkRequest "GET" "/")).1.status = 500 ∧
    (serveOne handler (worldFailing (.io "input/output error")) (mkRequest "GET" "/")).1.status
      = 500 :=
  ⟨handler_get_read_error_500 _ _ .notExist rfl rfl,
   handler_get_read_error_500 _ _ .permission rfl rfl,
   handler_get_read_error_500 _ _ (.io "input/output error") rfl rfl⟩

/-- C4: no caching. For two GET requests served one after the other, the file holding b1
when the first arrives and b2 when the second arrives, the bodies of the two responses are
b1 and b2: the second body is the contents at the time of the second request. -/
theorem serveAll_no_caching (wd : World) (fs1 fs2 : FileSystem) (r1 r2 : Request)
    (b1 b2 : Bytes) (hm1 : r1.Method = "GET") (hm2 : r2.Method = "GET")
    (h1 : fs1 "/config/config.json" = .ok b1) (h2 : fs2 "/config/config.json" = .ok b2) :
    (serveAll handler wd [(fs1, r1), (fs2, r2)]).1.map (fun w => w.body) = [b1, b2] := by
  simp only [serveAll, serveOne_handler, List.map_cons, List.map_nil, configPath, h1, h2,
    replyOf, hm1, hm2, if_true, fileReply]

theorem serveAll_no_caching_witness :
    (serveAll handler (worldFailing .notExist)
      [((worldWith [1, 2, 3]).fs, mkRequest "GET" "/"),
       ((worldWith [4, 5]).fs, mkRequest "GET" "/")]).1.map (fun w => w.body)
      = [[1, 2, 3], [4, 5]] :=
  serveAll_no_caching _ _ _ _ _ [1, 2, 3] [4, 5] rfl rfl rfl rfl

/-- C5: the 500 response does not depend on the read error. For any two read errors the
whole responses to a GET (status, headers, body) are equal. -/
theorem handler_read_error_generic (wd1 wd2 : World) (r1 r2 : Request) (e1 e2 : ReadError)
    (hm1 : r1.Method = "GET") (hm2 : r2.Method = "GET")
    (h1 : wd1.fs "/config/config.json" = .error e1)
    (h2 : wd2.fs "/config/config.json" = .error e2) :
    (serveOne handler wd1 r1).1 = (serveOne handler wd2 r2).1 := by
  rw [serveOne_handler, serveOne_handler]
  simp [configPath, h1, h2, replyOf, hm1, hm2]

theorem handler_read_error_generic_witness :
    (serveOne handler (worldFailing .notExist) (mkRequest "GET" "/")).1 =
    (serveOne handler (worldFailing (.io "disk failure on /dev/sda")) (mkRequest "GET" "/")).1 :=
  handler_read_error_generic _ _ _ _ .notExist (.io "disk failure on /dev/sda") rfl rfl rfl rfl

/-- C6, as stated, fails: HEAD is a method other than GET, and the 405 response to a HEAD
request has an empty body, which does not contain "Invalid request method". -/
theorem error_body_head_counterexample :
    (mkRequest "HEAD" "/").Method ≠ "GET" ∧
    (serveOne handler (worldWith [1]) (mkRequest "HEAD" "/")).1.status = 405 ∧
    (serveOne handler (worldWith [1]) (mkRequest "HEAD" "/")).1.body = [] ∧
    ¬ (stringBytes "Invalid request method" <:+:
        (serveOne handler (worldWith [1]) (mkRequest "HEAD" "/")).1.body) := by
  have hb : (serveOne handler (worldWith [1]) (mkRequest "HEAD" "/")).1.body = [] := rfl
  refine ⟨by decide, rfl, hb, ?_⟩
  rw [hb, List.infix_nil]
  decide

/-- C6, amended: both error responses are plain text, with a Content-Type that starts with
text/plain and is not application/json. The body of the 500 response contains
"Error reading config file". The body of the 405 response contains
"Invalid request method" when the method is not HEAD, and is empty when the method is
HEAD. -/
theorem error_replies_plain_text (wd : World) (r : Request) :
    (r.Method ≠ "GET" →
      (serveOne handler wd r).1.status = 405 ∧
      plainText (serveOne handler wd r).1 ∧
      (r.Method ≠ "HEAD" →
        stringBytes "Invalid request method" <:+: (serveOne handler wd r).1.body) ∧
      (r.Method = "HEAD" → (serveOne handler wd r).1.body = [])) ∧
    (r.Method = "GET" → ∀ e, wd.fs "/config/config.json" = .error e →
      (serveOne handler wd r).1.status = 500 ∧
      stringBytes "Error reading config file" <:+: (serveOne handler wd r).1.body ∧
      plainText (serveOne handler wd r).1) := by
  have hct : ∀ method msg code, plainText (errorReply method msg code) :=
    fun method msg code =>
      ⟨"text/plain; charset=utf-8", by simp [ResponseWriter.Get, errorReply], by decide,
        by decide⟩
  have hbody : ∀ method msg code, method ≠ "HEAD" →
      stringBytes msg <:+: (errorReply method msg code).body :=
    fun method msg code hh => ⟨[], stringBytes "\n", by simp [errorReply, hh]⟩
  rw [serveOne_handler]
  constructor
  · intro hm
    simp only [replyOf, hm, if_false]
    exact ⟨rfl, hct _ _ _, hbody _ _ _, fun hh => by simp [errorReply, hh]⟩
  · intro hm e he
    simp only [configPath, he, replyOf, hm, if_true]
    exact ⟨rfl, hbody _ _ _ (by decide), hct _ _ _⟩

theorem error_replies_plain_text_witness :
    ((serveOne handler (worldWith [1]) (mkRequest "POST" "/")).1.status = 405 ∧
      plainText (serveOne handler (worldWith [1]) (mkRequest "POST" "/")).1 ∧
      stringBytes "Invalid request method" <:+:
        (serveOne handler (worldWith [1]) (mkRequest "POST" "/")).1.body) ∧
    ((serveOne handler (worldWith [1]) (mkRequest "HEAD" "/")).1.status = 405 ∧
      plainText (serveOne handler (worldWith [1]) (mkRequest "HEAD" "/")).1) ∧
    ((serveOne handler (worldFailing .notExist) (mkRequest "GET" "/")).1.status = 500 ∧
      stringBytes "Error reading config file" <:+:
        (serveOne handler (worldFailing .notExist) (mkRequest "GET" "/")).1.body ∧
      plainText (serveOne handler (worldFailing .notExist) (mkRequest "GET" "/")).1) :=
  have hpost := (error_replies_plain_text (worldWith [1]) (mkRequest "POST" "/")).1
    (by decide)
  have hhead := (error_replies_plain_text (worldWith [1]) (mkRequest "HEAD" "/")).1
    (by decide)
  ⟨⟨hpost.1, hpost.2.1, hpost.2.2.1 (by decide)⟩, ⟨hhead.1, hhead.2.1⟩,
   (error_replies_plain_text (worldFailing .notExist) (mkRequest "GET" "/")).2 rfl
     .notExist rfl⟩

/-- C7, as stated, fails: the path /foo is not the root path, yet the mux of main selects
the registered handler for it (the matching pattern is "/"), and a GET to /foo is answered
with status 200 and the contents of the file. -/
theorem root_only_counterexample :
    (mkRequest "GET" "/foo").Path ≠ "/" ∧
    (worldWith sampleConfig).fs "/config/config.json" = .ok [123, 34, 97, 34, 58, 49, 125] ∧
    main.serve (worldWith sampleConfig) (mkRequest "GET" "/foo") =
      .ok (.handled { reqMethod := "GET"
                      header := [("Content-Type", "application/json")]
                      wroteHeader := true
                      status := 200
                      body := [123, 34, 97, 34, 58, 49, 125] } "/") :=
  ⟨by decide, rfl, rfl⟩

/-- C7, amended: "/" is the only pattern registered and it names the whole subtree. For
every request that the server has read and accepted, whose request URI is not "*" and
whose path starts with a slash and is in canonical form (cleanPath leaves it unchanged),
the root path or not, the server and the mux select the registered handler with pattern
"/", so the response is the response of that handler. -/
theorem root_pattern_matches_subtree (wd : World) (r : Request)
    (huri : r.RequestURI ≠ "*")
    (hp : strings.startsWith r.Path "/" = true)
    (hc : cleanPath r.Path = r.Path) :
    main.DefaultServeMux.map (fun mux => mux.m.map (fun kv => kv.1)) = .ok ["/"] ∧
    main.serve wd r = .ok (.handled (serveOne handler wd r).1 "/") := by
  refine ⟨rfl, ?_⟩
  rw [main_serve_eq, mainMux_route r huri]
  by_cases hm : r.Method = "CONNECT"
  · simp only [hm, if_true]
    rw [mainMux_handler _ _ hp]
  · simp only [hm, if_false, hc, bne_self_eq_false, Bool.false_eq_true]
    rw [mainMux_handler _ _ hp]

theorem root_pattern_matches_subtree_witness :
    (mkRequest "GET" "/foo/bar").RequestURI ≠ "*" ∧
    strings.startsWith (mkRequest "GET" "/foo/bar").Path "/" = true ∧
    cleanPath (mkRequest "GET" "/foo/bar").Path = (mkRequest "GET" "/foo/bar").Path ∧
    main.DefaultServeMux.map (fun mux => mux.m.map (fun kv => kv.1)) = .ok ["/"] ∧
    main.serve (worldWith [7]) (mkRequest "GET" "/foo/bar") =
      .ok (.handled (serveOne handler (worldWith [7]) (mkRequest "GET" "/foo/bar")).1 "/") :=
  ⟨by decide, by decide, by decide,
   root_pattern_matches_subtree _ _ (by decide) (by decide) (by decide)⟩

/-- C8: requests are handled statelessly. Two requests with the same method and the same
outcome of the read get the same response, whatever their hosts, paths, headers and
bodies, whatever requests were served before them, and whatever the read log: the response
is the function replyOf of the method and the read outcome. -/
theorem handler_stateless (wd1 wd2 : World) (hist1 hist2 : List (FileSystem × Request))
    (fs1 fs2 : FileSystem) (r1 r2 : Request) (hm : r1.Method = r2.Method)
    (hfs : fs1 "/config/config.json" = fs2 "/config/config.json") :
    ∃ w, (serveAll handler wd1 (hist1 ++ [(fs1, r1)])).1.getLast? = some w ∧
      (serveAll handler wd2 (hist2 ++ [(fs2, r2)])).1.getLast? = some w ∧
      w = replyOf r1.Method (fs1 "/config/config.json") := by
  obtain ⟨a, ha⟩ := serveAll_snoc handler hist1 wd1 fs1 r1
  obtain ⟨b, hb⟩ := serveAll_snoc handler hist2 wd2 fs2 r2
  refine ⟨_, ha, ?_, ?_⟩
  · rw [hb, serveOne_handler, serveOne_handler]
    simp [configPath, hm, hfs]
  · rw [serveOne_handler]
    simp [configPath]

theorem handler_stateless_witness :
    ∃ w,
      (serveAll handler (worldWith [9])
        ([] ++ [((worldWith [1, 2]).fs,
          ({ Method := "GET", RequestURI := "/", Host := "example.org", URLHost := "",
             Path := "/", Header := [("X-Trace", "1")], Body := [5, 6] } : Request))])).1.getLast?
        = some w ∧
      (serveAll handler (worldFailing .notExist)
        ([((worldFailing .permission).fs, mkRequest "POST" "/x"),
          ((worldWith [3]).fs, mkRequest "GET" "/")] ++
          [((worldWith [1, 2]).fs, mkRequest "GET" "/other")])).1.getLast? = some w ∧
      w = replyOf "GET" (.ok [1, 2]) :=
  handler_stateless (worldWith [9]) (worldFailing .notExist) []
    [((worldFailing .permission).fs, mkRequest "POST" "/x"),
     ((worldWith [3]).fs, mkRequest "GET" "/")]
    (worldWith [1, 2]).fs (worldWith [1, 2]).fs
    { Method := "GET", RequestURI := "/", Host := "example.org", URLHost := "", Path := "/",
      Header := [("X-Trace", "1")], Body := [5, 6] }
    (mkRequest "GET" "/other") rfl rfl

/-- C9: the status is one of 200, 405 and 500; it is 200 exactly when the method is "GET"
and the read succeeds; and the header Content-Type: application/json is present exactly
when the status is 200. -/
theorem handler_status_cases (wd : World) (r : Request) :
    ((serveOne handler wd r).1.status = 200 ∨ (serveOne handler wd r).1.status = 405 ∨
      (serveOne handler wd r).1.status = 500) ∧
    ((serveOne handler wd r).1.status = 200 ↔
      (r.Method = "GET" ∧ ∃ b, wd.fs "/config/config.json" = .ok b)) ∧
    ((serveOne handler wd r).1.Get "Content-Type" = some "application/json" ↔
      (serveOne handler wd r).1.status = 200) := by
  rw [serveOne_handler]
  by_cases hm : r.Method = "GET"
  · cases hfs : wd.fs configPath with
    | ok b =>
      have hfs2 : wd.fs "/config/config.json" = .ok b := hfs
      simp [replyOf, hm, fileReply, ResponseWriter.Get, hfs2]
    | error e =>
      have hfs2 : wd.fs "/config/config.json" = .error e := hfs
      simp [replyOf, hm, errorReply, ResponseWriter.Get, hfs2]
  · simp [replyOf, hm, errorReply, ResponseWriter.Get]

/-- C10: for a request whose method is not "GET" the file is not read (the read log is
unchanged), the response is the same for every state of the file system, and its status is
405 and not 500. -/
theorem handler_other_method_no_read (wd1 wd2 : World) (r : Request)
    (hm : r.Method ≠ "GET") :
    (serveOne handler wd1 r).2.reads = wd1.reads ∧
    (serveOne handler wd1 r).1 = (serveOne handler wd2 r).1 ∧
    (serveOne handler wd1 r).1.status = 405 ∧
    (serveOne handler wd1 r).1.status ≠ 500 := by
  rw [serveOne_handler_world, serveOne_handler, serveOne_handler]
  simp [replyOf, hm, errorReply]

theorem handler_other_method_no_read_witness :
    (serveOne handler (worldWith [1, 2]) (mkRequest "POST" "/")).2.reads = [] ∧
    (serveOne handler (worldWith [1, 2]) (mkRequest "POST" "/")).1 =
      (serveOne handler (worldFailing .permission) (mkRequest "POST" "/")).1 ∧
    (serveOne handler (worldWith [1, 2]) (mkRequest "POST" "/")).1.status = 405 ∧
    (serveOne handler (worldWith [1, 2]) (mkRequest "POST" "/")).1.status ≠ 500 :=
  handler_other_method_no_read (worldWith [1, 2]) (worldFailing .permission)
    (mkRequest "POST" "/") (by decide)

end HBook
